import Mathlib

/-!
Shallow embedding of the resume-generation pipeline of this repository:
the job-description extraction chain (`app/agents/jd_extractor.py` and
`app/services/web_scraper.py`), the ATS scoring clamp
(`app/services/llm_service.py`), the optimizer agent
(`app/agents/optimizer_agent.py`), the shared agent `run` wrapper
(`app/agents/base_agent.py`) and the orchestration loop of
`generate_resume` in `app/api/resume.py`.

External effects (HTTP fetches, database access and text-generation calls)
are modelled by oracle parameters.  The embedding additionally returns call
counters so that statements such as "performs no network fetch" or
"exactly n scoring calls" can be expressed.
-/

namespace ResumeAI

/-- `Settings.ATS_TARGET_SCORE` (app/config.py line 31). -/
def ATS_TARGET_SCORE : Int := 85

/-- `Settings.MAX_OPTIMIZATION_ITERATIONS` (app/config.py line 32). -/
def MAX_OPTIMIZATION_ITERATIONS : Nat := 5

/-- The Python exceptions raised by the embedded code, with `str(e)`. -/
inductive PyError where
  | typeError (msg : String)
  | valueError (msg : String)
deriving DecidableEq

/-- `str(e)` of an exception. -/
def pyErrorMessage : PyError → String
  | .typeError m => m
  | .valueError m => m

/-- `type(e).__name__` of an exception. -/
def pyErrorTypeName : PyError → String
  | .typeError _ => "TypeError"
  | .valueError _ => "ValueError"

/-- Message of the `TypeError` raised when `LLMService.optimize_resume`
(two declared parameters) is called with three positional arguments. -/
def arityErrorMsg : String :=
  "LLMService.optimize_resume() takes 3 positional arguments but 4 were given"

/-- Python positional-call semantics: a call whose positional argument count
differs from the function's declared parameter count raises `TypeError`
before the body runs; otherwise the body's value is returned. -/
def pyCallArity (paramCount argCount : Nat) (body : α) : Except PyError α :=
  if argCount = paramCount then .ok body else .error (.typeError arityErrorMsg)

/-- Characters removed by Python's `str.strip()` with no argument. -/
def pyIsSpace (c : Char) : Bool := c.isWhitespace

/-- `str.strip()` on a character list: drop whitespace from both ends. -/
def stripChars (l : List Char) : List Char :=
  ((l.dropWhile pyIsSpace).reverse.dropWhile pyIsSpace).reverse

/-- Python `s.strip()`. -/
def pyStrip (s : String) : String := String.mk (stripChars s.toList)

/-- Number of non-whitespace characters of a string (used to state the
spec's "at least 20 non-whitespace characters" conditions). -/
def nonWsCount (s : String) : Nat := s.toList.countP (fun c => !(pyIsSpace c))

/-- Python `s.startswith(pre)`. -/
def pyStartsWith (s pre : String) : Bool := pre.toList.isPrefixOf s.toList

/-- The artifact preamble checked by `LLMService.optimize_resume`
(llm_service.py line 435): `optimized.strip().startswith('\x5cdocumentclass')`. -/
def latexPreamble : String := "\\documentclass"

/-- `LLMService.optimize_resume` (llm_service.py lines 399-438), with the
prompt construction elided and the external generation call abstracted to
its outcome `gen` (`none` models `generate_text` raising).  Returns the
generated text only when, stripped, it starts with the document preamble;
otherwise — and on a generation error — returns `current_resume` unchanged. -/
def optimize_resume (current_resume : String) (gen : Option String) : String :=
  match gen with
  | none => current_resume
  | some optimized =>
      if pyStartsWith (pyStrip optimized) latexPreamble then optimized else current_resume

/-- Declared parameter count of `LLMService.optimize_resume`
(llm_service.py lines 399-403: `current_resume`, `ats_feedback`). -/
def optimize_resume_paramCount : Nat := 2

/-- Positional argument count at the revision call site
(optimizer_agent.py line 49: `current_resume`, `ats_feedback`, `iteration`). -/
def optimizer_revision_argCount : Nat := 3

/-- One entry of the optimization history list
(optimizer_agent.py lines 51-55). -/
structure HistoryEntry where
  iteration : Nat
  score : Int
  changes : List String
deriving DecidableEq

/-- A Python agent-result dict for the optimizer stage: every key that
`OptimizerAgent.execute` or the `BaseAgent.run` wrapper may set; `none`
means the key is absent from the dict. -/
structure OptEnvelope where
  success : Option Bool := none
  should_continue : Option Bool := none
  final_resume : Option String := none
  final_score : Option Int := none
  total_iterations : Option Nat := none
  note : Option String := none
  resume_content : Option String := none
  iteration : Option Nat := none
  optimization_history : Option (List HistoryEntry) := none
  error : Option String := none
  error_type : Option String := none
deriving DecidableEq

/-- The input dict handed to the optimizer stage by the loop in
`generate_resume` (resume.py lines 97-104). -/
structure OptInput where
  resume_content : String
  ats_score : Int
  iteration : Nat
  missing_keywords : List String
  suggestions : List String
  optimization_history : List HistoryEntry
deriving DecidableEq

/-- Result of `OptimizerAgent.execute` plus a flag recording whether the
revision step (the `llm_service.optimize_resume` call site) was reached. -/
structure OptStep where
  result : Except PyError OptEnvelope
  revisionInvoked : Bool

/-- `OptimizerAgent.execute` (optimizer_agent.py lines 19-62).  `gen` is the
outcome the text generator would return for the revision call.  The
revision call site passes three positional arguments
(`current_resume, ats_feedback, iteration`) to `LLMService.optimize_resume`,
which declares two, so `pyCallArity` raises `TypeError` there before any
generation happens. -/
def optimizerExecute (gen : Option String) (inp : OptInput) : OptStep :=
  if ATS_TARGET_SCORE ≤ inp.ats_score then
    { result := .ok { should_continue := some false
                    , final_resume := some inp.resume_content
                    , final_score := some inp.ats_score
                    , total_iterations := some inp.iteration }
    , revisionInvoked := false }
  else if MAX_OPTIMIZATION_ITERATIONS ≤ inp.iteration then
    { result := .ok { should_continue := some false
                    , final_resume := some inp.resume_content
                    , final_score := some inp.ats_score
                    , total_iterations := some inp.iteration
                    , note := some "Max iterations reached" }
    , revisionInvoked := false }
  else
    match pyCallArity optimize_resume_paramCount optimizer_revision_argCount
        (optimize_resume inp.resume_content gen) with
    | .error e => { result := .error e, revisionInvoked := true }
    | .ok improved =>
        { result := .ok
            { should_continue := some true
            , resume_content := some improved
            , iteration := some (inp.iteration + 1)
            , optimization_history := some (inp.optimization_history ++
                [{ iteration := inp.iteration
                 , score := inp.ats_score
                 , changes := inp.suggestions }]) }
        , revisionInvoked := true }

/-- `BaseAgent.run` (base_agent.py lines 22-44) projected onto the optimizer
stage: a normal `execute` result gets `success = True` added; an exception
is converted into a fresh envelope with `success = False`, the exception
message and its type name.  Timing, agent-name and logging fields are not
modelled. -/
def agentRun (r : Except PyError OptEnvelope) : OptEnvelope :=
  match r with
  | .ok d => { d with success := some true }
  | .error e =>
      { success := some false
      , error := some (pyErrorMessage e)
      , error_type := some (pyErrorTypeName e) }

/-- `run` of the optimizer agent: `execute` wrapped by `BaseAgent.run`. -/
def optimizerRun (gen : Option String) (inp : OptInput) : OptEnvelope :=
  agentRun (optimizerExecute gen inp).result

/-- The envelope `generate_resume` reads back from a run of the ATS scorer
stage (resume.py lines 86-102): the wrapper's `success` flag and the keys
the loop reads with `.get`; `none` means the key is absent. -/
structure ScoreEnvelope where
  success : Bool
  ats_score : Option Int := none
  keyword_matches : Option (List String) := none
  missing_keywords : Option (List String) := none
  suggestions : Option (List String) := none
deriving DecidableEq

/-- State threaded through the optimization loop of `generate_resume`
(resume.py lines 80-110), plus counters for the external calls made. -/
structure LoopState where
  resume_content : String
  optimization_history : List HistoryEntry
  scoringCalls : Nat
  revisionInvocations : Nat
deriving DecidableEq

/-- The `for iteration in range(1, 6)` loop of `generate_resume`
(resume.py lines 84-110).  `scoreEnv n` is the envelope of the `(n+1)`-st
scoring-stage run; `revGen n` the generator outcome of the `(n+1)`-st
revision attempt.  Each iteration runs the scorer; a scorer failure breaks;
otherwise it runs the optimizer stage and breaks unless the optimizer's
envelope holds `should_continue = True` (a missing key reads as `None`,
hence falsy). -/
def optimizationLoopFrom (scoreEnv : Nat → ScoreEnvelope) (revGen : Nat → Option String) :
    List Nat → LoopState → LoopState
  | [], st => st
  | i :: rest, st =>
      let s := scoreEnv st.scoringCalls
      let st1 : LoopState := { st with scoringCalls := st.scoringCalls + 1 }
      if s.success then
        let step := optimizerExecute (revGen st1.revisionInvocations)
          { resume_content := st1.resume_content
          , ats_score := s.ats_score.getD 0
          , iteration := i
          , missing_keywords := s.missing_keywords.getD []
          , suggestions := s.suggestions.getD []
          , optimization_history := st1.optimization_history }
        let env := agentRun step.result
        let st2 : LoopState :=
          { st1 with revisionInvocations :=
              st1.revisionInvocations + (if step.revisionInvoked then 1 else 0) }
        if env.should_continue.getD false then
          optimizationLoopFrom scoreEnv revGen rest
            { st2 with resume_content := env.resume_content.getD st2.resume_content
                     , optimization_history := env.optimization_history.getD [] }
        else st2
      else st1

/-- The full optimization loop of `generate_resume`, started on the freshly
generated artifact with an empty history (resume.py lines 80-110);
`range(1, 6)` enumerates the iterations `1,…,5`. -/
def generateResumeLoop (scoreEnv : Nat → ScoreEnvelope) (revGen : Nat → Option String)
    (initialResume : String) : LoopState :=
  optimizationLoopFrom scoreEnv revGen [1, 2, 3, 4, 5]
    { resume_content := initialResume
    , optimization_history := []
    , scoringCalls := 0
    , revisionInvocations := 0 }

/-- The dict `LLMService.extract_json` produces for a scoring prompt: the
keys of interest with `none` for an absent key.  Covers both a parsed
provider response and the fallback error dicts (which carry none of these
keys). -/
structure ScoreLLMResult where
  ats_score : Option Int := none
  keyword_matches : Option (List String) := none
  missing_keywords : Option (List String) := none
  suggestions : Option (List String) := none
deriving DecidableEq

/-- `LLMService.calculate_ats_score` (llm_service.py lines 84-133), after the
`extract_json` call whose outcome is `resp`: when the response carries an
`ats_score` key it is clamped with `max(0, min(100, score))`; otherwise the
key is set to the default score 50. -/
def calculate_ats_score (resp : ScoreLLMResult) : ScoreLLMResult :=
  match resp.ats_score with
  | some s => { resp with ats_score := some (max 0 (min 100 s)) }
  | none => { resp with ats_score := some 50 }

/-- The dict returned by `ATSScorerAgent.execute` (ats_scorer.py lines
16-34): each field is read from the `calculate_ats_score` result with
`.get(key, default)`. -/
structure ScorerOutput where
  ats_score : Int
  keyword_matches : List String
  missing_keywords : List String
  suggestions : List String
deriving DecidableEq

/-- `ATSScorerAgent.execute` (ats_scorer.py lines 16-34) on present inputs:
delegates to `calculate_ats_score` and projects the result with
`.get("ats_score", 0)` and `.get(…, [])`. -/
def ats_scorer_execute (resp : ScoreLLMResult) : ScorerOutput :=
  let sd := calculate_ats_score resp
  { ats_score := sd.ats_score.getD 0
  , keyword_matches := sd.keyword_matches.getD []
  , missing_keywords := sd.missing_keywords.getD []
  , suggestions := sd.suggestions.getD [] }

/-- The envelope a successful run of the ATS scorer stage hands to the
loop (`BaseAgent.run` adds `success = True` to the `execute` result). -/
def ats_scorer_run (resp : ScoreLLMResult) : ScoreEnvelope :=
  let out := ats_scorer_execute resp
  { success := true
  , ats_score := some out.ats_score
  , keyword_matches := some out.keyword_matches
  , missing_keywords := some out.missing_keywords
  , suggestions := some out.suggestions }

/-- Keys of the structured job-data dict built by
`JDExtractorAgent._structure_job_data` (jd_extractor.py lines 91-101);
`other` covers any further key the provider response may carry (such as
the `error` / `raw_response` keys of a failed `extract_json`). -/
inductive JKey where
  | job_title
  | company_name
  | job_description
  | requirements
  | responsibilities
  | skills_required
  | preferred_skills
  | experience_level
  | keywords
  | other (name : String)
deriving DecidableEq

/-- A JSON value as it occurs in the structured job-data dict. -/
inductive JVal where
  | str (s : String)
  | list (l : List String)
deriving DecidableEq

/-- Python truthiness of a `JVal` (`if value:` in the merge loop). -/
def jvalTruthy : JVal → Bool
  | .str s => s != ""
  | .list l => !l.isEmpty

/-- A Python dict with the structured-job-data keys: `none` for an absent
key. -/
def JobDataDict := JKey → Option JVal

/-- `dict[k] = v`. -/
def dictUpdate (d : JobDataDict) (k : JKey) (v : JVal) : JobDataDict :=
  fun k' => if k' = k then some v else d k'

/-- The `default_result` dict of `_structure_job_data` (jd_extractor.py
lines 91-101): fixed placeholders, `job_description` the first 1000
characters of the raw text, and empty lists. -/
def default_result (raw_text : String) : JobDataDict := fun k =>
  match k with
  | .job_title => some (.str "Position")
  | .company_name => some (.str "Company")
  | .job_description => some (.str (raw_text.take 1000))
  | .requirements => some (.list [])
  | .responsibilities => some (.list [])
  | .skills_required => some (.list [])
  | .preferred_skills => some (.list [])
  | .experience_level => some (.str "mid")
  | .keywords => some (.list [])
  | .other _ => none

/-- The merge loop of `_structure_job_data` (jd_extractor.py lines 103-107):
`for key, value in result.items(): if value: default_result[key] = value`.
`items` is the provider dict in iteration order. -/
def mergeStructured (items : List (JKey × JVal)) (d : JobDataDict) : JobDataDict :=
  items.foldl (fun acc kv => if jvalTruthy kv.2 then dictUpdate acc kv.1 kv.2 else acc) d

/-- `JDExtractorAgent._structure_job_data` (jd_extractor.py lines 64-109)
with the provider call abstracted to its outcome: `some items` is a dict
response (a raised exception gives `result = {}`, i.e. `some []`); `none`
models a non-dict parse, for which `isinstance(result, dict)` skips the
merge.  Never raises. -/
def structure_job_data (raw_text : String) (llm : Option (List (JKey × JVal))) :
    JobDataDict :=
  match llm with
  | none => default_result raw_text
  | some items => mergeStructured items (default_result raw_text)

/-! ### Web scraper (`app/services/web_scraper.py`) -/

/-- Python `needle in hay` on character lists. -/
def listContains : List Char → List Char → Bool
  | [], pat => pat.isEmpty
  | c :: t, pat => pat.isPrefixOf (c :: t) || listContains t pat

/-- Python `pat in hay` for strings. -/
def strContains (hay pat : String) : Bool := listContains hay.toList pat.toList

/-- Indices at which `pat` occurs in `l`, in increasing order. -/
def occurrencesOf (pat l : List Char) : List Nat :=
  (List.range l.length).filter (fun i => pat.isPrefixOf (l.drop i))

/-- The literal of the two LinkedIn patterns of `_parse_url_info`
(web_scraper.py lines 99 and 103). -/
def jobsViewPat : List Char := "/jobs/view/".toList

/-- `re.search(r'/jobs/view/(\x5cd+)', url)` (web_scraper.py line 99): the
digits following the first `/jobs/view/` occurrence that is immediately
followed by a digit. -/
def linkedinJobId (url : String) : Option String :=
  let l := url.toList
  match (occurrencesOf jobsViewPat l).filter
      (fun i => ((l.drop (i + jobsViewPat.length)).headD ' ').isDigit) with
  | [] => none
  | i :: _ => some (String.mk ((l.drop (i + jobsViewPat.length)).takeWhile Char.isDigit))

/-- The literal `-at-` of the slug pattern. -/
def atPat : List Char := "-at-".toList

/-- Positions `j` in `r` holding a dash immediately followed by a digit
(where the regex tail `-\x5cd+` can match). -/
def dashDigitIdxs (r : List Char) : List Nat :=
  (List.range r.length).filter
    (fun j => r.get? j = some '-' && ((r.get? (j + 1)).getD ' ').isDigit)

/-- Matching `([^/]+)-at-([^/]+)-\x5cd+` inside one slash-free segment,
with the backtracking of the two greedy groups: group 1 extends to the
last `-at-` after which the remainder still offers a nonempty group 2
followed by `-digits`; group 2 then extends to the last viable dash. -/
def slugOfSegment (seg : List Char) : Option (List Char × List Char) :=
  let cands := (occurrencesOf atPat seg).filter (fun i =>
    0 < i && 1 ≤ ((dashDigitIdxs (seg.drop (i + atPat.length))).getLast?.getD 0))
  match cands.getLast? with
  | none => none
  | some i =>
      let r := seg.drop (i + atPat.length)
      match (dashDigitIdxs r).getLast? with
      | none => none
      | some j => some (seg.take i, r.take j)

/-- `title()`-casing as in Python: an alphabetic character is uppercased
when the previous character is not alphabetic, lowercased otherwise. -/
def pyTitleGo : Bool → List Char → List Char
  | _, [] => []
  | prevAlpha, c :: t =>
      (if c.isAlpha then (if prevAlpha then c.toLower else c.toUpper) else c)
        :: pyTitleGo c.isAlpha t

/-- Python `s.title()`. -/
def pyTitle (s : String) : String := String.mk (pyTitleGo false s.toList)

/-- Try the slug match at each `/jobs/view/` occurrence from left to right
(the leftmost position where the whole pattern matches wins, as with
`re.search`).  The segment is the slash-free run following the literal. -/
def firstSlug (l : List Char) : List Nat → Option (List Char × List Char)
  | [] => none
  | i :: rest =>
      match slugOfSegment ((l.drop (i + jobsViewPat.length)).takeWhile (fun c => c ≠ '/')) with
      | some p => some p
      | none => firstSlug l rest

/-- Python `.replace('-', ' ')` for the single-character pattern used on
the slug groups. -/
def dashToSpace (s : String) : String :=
  String.mk (s.toList.map (fun c => if c = '-' then ' ' else c))

/-- `re.search(r'/jobs/view/([^/]+)-at-([^/]+)-\x5cd+', url)` followed by
`.replace('-', ' ').title()` on both groups (web_scraper.py lines 103-106). -/
def linkedinSlug (url : String) : Option (String × String) :=
  match firstSlug url.toList (occurrencesOf jobsViewPat url.toList) with
  | none => none
  | some (t, c) =>
      some (pyTitle (dashToSpace (String.mk t)), pyTitle (dashToSpace (String.mk c)))

/-- The query component of a URL as `urlparse` yields it: the part after
the first `?` of the pre-fragment prefix. -/
def queryOf (url : String) : String :=
  String.mk (((url.toList.takeWhile (fun c => c ≠ '#')).dropWhile (fun c => c ≠ '?')).drop 1)

/-- Splitting a query string at each `&`, as `parse_qs` does. -/
def splitAmp : List Char → List (List Char)
  | [] => [[]]
  | c :: t =>
      match splitAmp t with
      | [] => [[]]
      | h :: rest => if c = '&' then [] :: h :: rest else (c :: h) :: rest

/-- `parse_qs(parsed.query).get('jk', [''])[0]` (web_scraper.py line 112):
the first nonempty `jk` parameter value, if any (percent-decoding is not
modelled). -/
def indeedJobKey (url : String) : Option String :=
  match (splitAmp (queryOf url).toList).filterMap (fun p =>
      if "jk=".toList.isPrefixOf p then
        let v := p.drop 3
        if v.isEmpty then none else some (String.mk v)
      else none) with
  | [] => none
  | v :: _ => some v

/-- The info dict built by `_parse_url_info` (web_scraper.py lines 87-123):
`none` for an absent key. -/
structure UrlInfo where
  source : Option String := none
  job_id : Option String := none
  title : Option String := none
  company : Option String := none
deriving DecidableEq

/-- `WebScraperService._parse_url_info` (web_scraper.py lines 87-123):
host-keyed extraction of job info from the URL alone; returns `None` only
when the info dict stays empty, i.e. for an unknown host. -/
def parse_url_info (url : String) : Option UrlInfo :=
  if strContains url "linkedin.com" then
    some { source := some "LinkedIn"
         , job_id := linkedinJobId url
         , title := (linkedinSlug url).map Prod.fst
         , company := (linkedinSlug url).map Prod.snd }
  else if strContains url "indeed.com" then
    some { source := some "Indeed", job_id := indeedJobKey url }
  else if strContains url "glassdoor.com" then
    some { source := some "Glassdoor" }
  else none

/-- `WebScraperService._generate_placeholder_jd` (web_scraper.py lines
125-145): the placeholder job description synthesized from the URL info. -/
def generate_placeholder_jd (info : UrlInfo) (url : String) : String :=
  "Job Posting from " ++ info.source.getD "Job Board"
    ++ "\n\nJob Title: " ++ info.title.getD "Position"
    ++ "\nCompany: " ++ info.company.getD "Company"
    ++ "\nSource URL: " ++ url
    ++ "\n\nNote: This job description was extracted from the URL pattern. \nFor the most accurate resume generation, please use the \"Paste JD\" option \nand copy the full job description from the job posting.\n\nThe AI will generate a resume based on:\n- The job title and company extracted from the URL\n- Your profile information\n- Standard requirements for this type of role\n"

/-- What the selector pipeline of a site fetcher would extract from a
fetched page (BeautifulSoup selection and `_clean_text` are abstracted
into the oracle): the title, the company and the cleaned body text. -/
structure PageExtract where
  title : String
  company : String
  cleanedText : String
deriving DecidableEq

/-- Outcome of the single `client.get` a site fetcher performs: either the
request raises, or a response with a status code arrives whose markup the
selector pipeline reduces to `page`. -/
inductive FetchOutcome where
  | raise (msg : String)
  | response (statusCode : Nat) (page : PageExtract)
deriving DecidableEq

/-- The dict a site fetcher or `fetch_job_from_url` returns; `none` for an
absent key. -/
structure ScrapeResult where
  success : Bool
  job_text : String := ""
  title : Option String := none
  company : Option String := none
  source : Option String := none
  note : Option String := none
  error : Option String := none
deriving DecidableEq

/-- `WebScraperService._fetch_linkedin` (web_scraper.py lines 147-248): one
GET; an exception or a non-200 status is a failure with an error message;
a 200 response succeeds only when the cleaned text has at least 50
characters. -/
def fetch_linkedin (outcome : FetchOutcome) : ScrapeResult :=
  match outcome with
  | .raise msg => { success := false, error := some msg }
  | .response code page =>
      if code ≠ 200 then
        { success := false
        , error := some ("LinkedIn returned status " ++ toString code
            ++ ". This job may require login.") }
      else if page.cleanedText.length < 50 then
        { success := false
        , error := some "Could not extract job description. LinkedIn may require login for this job." }
      else
        { success := true
        , job_text := page.cleanedText
        , title := some page.title
        , company := some page.company
        , source := some "linkedin" }

/-- `WebScraperService._fetch_indeed` (web_scraper.py lines 250-288). -/
def fetch_indeed (outcome : FetchOutcome) : ScrapeResult :=
  match outcome with
  | .raise msg => { success := false, error := some msg }
  | .response code page =>
      if code ≠ 200 then
        { success := false
        , error := some ("Indeed returned status " ++ toString code) }
      else
        { success := page.cleanedText ≠ ""
        , job_text := page.cleanedText
        , title := some page.title
        , company := some page.company
        , source := some "indeed" }

/-- `WebScraperService._fetch_glassdoor` (web_scraper.py lines 290-314). -/
def fetch_glassdoor (outcome : FetchOutcome) : ScrapeResult :=
  match outcome with
  | .raise msg => { success := false, error := some msg }
  | .response code page =>
      if code ≠ 200 then
        { success := false
        , error := some ("Glassdoor returned status " ++ toString code) }
      else
        { success := page.cleanedText ≠ ""
        , job_text := page.cleanedText
        , source := some "glassdoor" }

/-- `WebScraperService._fetch_generic` (web_scraper.py lines 316-371):
like the site fetchers but with the text truncated to 5000 characters and
no company selector. -/
def fetch_generic (outcome : FetchOutcome) : ScrapeResult :=
  match outcome with
  | .raise msg => { success := false, error := some msg }
  | .response code page =>
      if code ≠ 200 then
        { success := false
        , error := some ("Site returned status " ++ toString code) }
      else
        { success := page.cleanedText ≠ ""
        , job_text := page.cleanedText.take 5000
        , title := some page.title
        , source := some "generic" }

/-- `WebScraperService.fetch_job_from_url` (web_scraper.py lines 28-85):
parse the URL pattern first, dispatch to the host's fetcher, and if the
fetch did not succeed but the URL yielded info, return a degraded success
built from the placeholder job description. -/
def fetch_job_from_url (url : String) (outcome : FetchOutcome) : ScrapeResult :=
  let url_info := parse_url_info url
  let result :=
    if strContains url "linkedin.com" then fetch_linkedin outcome
    else if strContains url "indeed.com" then fetch_indeed outcome
    else if strContains url "glassdoor.com" then fetch_glassdoor outcome
    else fetch_generic outcome
  match url_info with
  | some info =>
      if result.success then result
      else
        { success := true
        , job_text := generate_placeholder_jd info url
        , title := some (info.title.getD "")
        , company := some (info.company.getD "")
        , source := some "url_parsed"
        , note := some "Job details extracted from URL. For best results, paste the full job description." }
  | none => result

/-! ### JD extractor agent (`app/agents/jd_extractor.py`) -/

/-- The input dict `generate_resume` hands to the JD extractor
(resume.py lines 38-43); absent request fields arrive as `""`. -/
structure JDInput where
  job_url : String
  job_description_text : String
  job_title : String
  company_name : String
deriving DecidableEq

/-- Result of `JDExtractorAgent.execute` plus the number of HTTP GET
requests performed on the way. -/
structure JDOutcome where
  result : Except PyError JobDataDict
  networkFetches : Nat

/-- The `ValueError` message raised on unusable input
(jd_extractor.py line 51). -/
def insufficientInputMsg : String :=
  "No job description available. Please provide a valid URL or paste the job description."

/-- The tail of `JDExtractorAgent.execute` after the URL block
(jd_extractor.py lines 50-62): reject text that is empty or whose stripped
length is below 20, otherwise structure it and apply the title/company
overrides for nonempty provided values. -/
def jd_finish (job_text job_title company_name : String)
    (llm : Option (List (JKey × JVal))) : Except PyError JobDataDict :=
  if job_text = "" ∨ (pyStrip job_text).length < 20 then
    .error (.valueError insufficientInputMsg)
  else
    let structured := structure_job_data job_text llm
    let structured :=
      if job_title ≠ "" then dictUpdate structured .job_title (.str job_title) else structured
    let structured :=
      if company_name ≠ "" then dictUpdate structured .company_name (.str company_name) else structured
    .ok structured

/-- `JDExtractorAgent.execute` (jd_extractor.py lines 17-62).  When a
nonblank URL is present the scraper is always consulted first (one HTTP
GET); a scrape failure raises; a scrape success replaces the job text and
fills in title/company not supplied by the caller.  `fetch` is the outcome
of the GET, `llm` the structuring-provider outcome. -/
def jd_extractor_execute (inp : JDInput) (fetch : FetchOutcome)
    (llm : Option (List (JKey × JVal))) : JDOutcome :=
  if inp.job_url ≠ "" ∧ pyStrip inp.job_url ≠ "" then
    let scrape := fetch_job_from_url (pyStrip inp.job_url) fetch
    if scrape.success then
      { result := jd_finish scrape.job_text
          (if inp.job_title = "" then scrape.title.getD "" else inp.job_title)
          (if inp.company_name = "" then scrape.company.getD "" else inp.company_name)
          llm
      , networkFetches := 1 }
    else
      { result := .error (.valueError ("Could not extract job from URL: "
          ++ scrape.error.getD "Failed to fetch URL"))
      , networkFetches := 1 }
  else
    { result := jd_finish inp.job_description_text inp.job_title inp.company_name llm
    , networkFetches := 0 }

/-- The envelope `BaseAgent.run` produces for the JD extractor stage. -/
structure JDEnvelope where
  success : Bool
  payload : Option JobDataDict
  error : Option String

/-- `BaseAgent.run` projected onto the JD extractor stage. -/
def jdAgentRun (r : Except PyError JobDataDict) : JDEnvelope :=
  match r with
  | .ok d => { success := true, payload := some d, error := none }
  | .error e => { success := false, payload := none, error := some (pyErrorMessage e) }

/-! ### The endpoint `generate_resume` (`app/api/resume.py` lines 23-138) -/

/-- The resume row assembled at the end of `generate_resume`
(resume.py lines 121-132), restricted to the fields computed by the loop. -/
structure ResumeRecord where
  latex_content : String
  ats_score : Int
  iterations : Nat
  keywords : List String
  optimization_history : List HistoryEntry
deriving DecidableEq

/-- All external outcomes one run of `generate_resume` can consume. -/
structure GenOracles where
  fetch : FetchOutcome
  jdLlm : Option (List (JKey × JVal))
  generation : Except PyError String
  scoreEnv : Nat → ScoreEnvelope
  revGen : Nat → Option String

/-- External-call counters of one `generate_resume` run. -/
structure PipelineTrace where
  networkFetches : Nat
  loopScoringCalls : Nat
  revisionInvocations : Nat
  totalScoringCalls : Nat
deriving DecidableEq

/-- `generate_resume` (resume.py lines 23-138) from the JD extraction on
(the profile lookup is assumed to succeed; persistence is elided): a failed
JD stage or generation stage raises HTTP 500; otherwise the optimization
loop runs, a final scoring call is made, and the resume row is returned. -/
def generate_resume (req : JDInput) (o : GenOracles) :
    Except (Nat × String) ResumeRecord × PipelineTrace :=
  let jd := jd_extractor_execute req o.fetch o.jdLlm
  let jdEnv := jdAgentRun jd.result
  match jdEnv.payload with
  | none =>
      (.error (500, jdEnv.error.getD "Failed to extract job description")
      , { networkFetches := jd.networkFetches
        , loopScoringCalls := 0
        , revisionInvocations := 0
        , totalScoringCalls := 0 })
  | some _ =>
      match o.generation with
      | .error _ =>
          (.error (500, "Failed to generate resume")
          , { networkFetches := jd.networkFetches
            , loopScoringCalls := 0
            , revisionInvocations := 0
            , totalScoringCalls := 0 })
      | .ok resume_content =>
          let st := generateResumeLoop o.scoreEnv o.revGen resume_content
          let fs := o.scoreEnv st.scoringCalls
          let final_score := if fs.success then fs.ats_score.getD 0 else 0
          (.ok { latex_content := st.resume_content
               , ats_score := final_score
               , iterations := st.optimization_history.length + 1
               , keywords := fs.keyword_matches.getD []
               , optimization_history := st.optimization_history }
          , { networkFetches := jd.networkFetches
            , loopScoringCalls := st.scoringCalls
            , revisionInvocations := st.revisionInvocations
            , totalScoringCalls := st.scoringCalls + 1 })

/-! ### Helper lemmas -/

/-- The wrapped optimizer stage never yields a truthy `should_continue`:
both normal `execute` exits carry `should_continue = False`, and the
revision branch raises `TypeError` (three positional arguments to the
two-parameter `optimize_resume`), whose error envelope lacks the key. -/
theorem optimizerRun_not_continue (gen : Option String) (inp : OptInput) :
    (agentRun (optimizerExecute gen inp).result).should_continue.getD false = false := by
  by_cases h1 : ATS_TARGET_SCORE ≤ inp.ats_score
  · simp [optimizerExecute, h1, agentRun]
  · by_cases h2 : MAX_OPTIMIZATION_ITERATIONS ≤ inp.iteration
    · simp [optimizerExecute, h1, h2, agentRun]
    · simp [optimizerExecute, h1, h2, agentRun, pyCallArity,
        optimize_resume_paramCount, optimizer_revision_argCount]

/-- Closed form of one loop iteration: since the optimizer stage never
returns a truthy `should_continue`, the loop body never recurses — it
performs one scoring call and, score permitting, one revision attempt. -/
theorem optimizationLoopFrom_cons (scoreEnv : Nat → ScoreEnvelope)
    (revGen : Nat → Option String) (i : Nat) (rest : List Nat) (st : LoopState) :
    optimizationLoopFrom scoreEnv revGen (i :: rest) st =
      if (scoreEnv st.scoringCalls).success then
        { st with scoringCalls := st.scoringCalls + 1
                , revisionInvocations := st.revisionInvocations +
                    (if (optimizerExecute (revGen st.revisionInvocations)
                          { resume_content := st.resume_content
                          , ats_score := (scoreEnv st.scoringCalls).ats_score.getD 0
                          , iteration := i
                          , missing_keywords := (scoreEnv st.scoringCalls).missing_keywords.getD []
                          , suggestions := (scoreEnv st.scoringCalls).suggestions.getD []
                          , optimization_history := st.optimization_history }).revisionInvoked
                     then 1 else 0) }
      else { st with scoringCalls := st.scoringCalls + 1 } := by
  by_cases hs : (scoreEnv st.scoringCalls).success
  · simp [optimizationLoopFrom, hs, optimizerRun_not_continue]
  · simp [optimizationLoopFrom, hs]

/-- The loop never appends to the optimization history. -/
theorem generateResumeLoop_history (scoreEnv : Nat → ScoreEnvelope)
    (revGen : Nat → Option String) (initial : String) :
    (generateResumeLoop scoreEnv revGen initial).optimization_history = [] := by
  rw [generateResumeLoop, optimizationLoopFrom_cons]
  split <;> rfl

/-- The loop performs exactly one scoring call. -/
theorem generateResumeLoop_scoringCalls (scoreEnv : Nat → ScoreEnvelope)
    (revGen : Nat → Option String) (initial : String) :
    (generateResumeLoop scoreEnv revGen initial).scoringCalls = 1 := by
  rw [generateResumeLoop, optimizationLoopFrom_cons]
  split <;> rfl

/-- The loop never changes the artifact. -/
theorem generateResumeLoop_resume (scoreEnv : Nat → ScoreEnvelope)
    (revGen : Nat → Option String) (initial : String) :
    (generateResumeLoop scoreEnv revGen initial).resume_content = initial := by
  rw [generateResumeLoop, optimizationLoopFrom_cons]
  split <;> rfl

/-- `List.lookup` is `none` when the key heads no pair. -/
theorem lookup_none_of_not_mem (k : JKey) :
    ∀ items : List (JKey × JVal), k ∉ items.map Prod.fst → items.lookup k = none := by
  intro items
  induction items with
  | nil => intro _; rfl
  | cons hd tl ih =>
      obtain ⟨k0, v0⟩ := hd
      intro h
      simp only [List.map_cons, List.mem_cons] at h
      push_neg at h
      have hbeq : (k == k0) = false := by
        simp only [beq_eq_false_iff_ne, ne_eq]
        exact h.1
      simp [List.lookup, hbeq, ih h.2]

/-- Characterization of the merge fold over a dict with distinct keys. -/
theorem mergeStructured_lookup (items : List (JKey × JVal)) :
    ∀ (d : JobDataDict) (k : JKey), (items.map Prod.fst).Nodup →
      mergeStructured items d k =
        match items.lookup k with
        | some v => if jvalTruthy v then some v else d k
        | none => d k := by
  induction items with
  | nil => intro d k _; rfl
  | cons hd tl ih =>
      obtain ⟨k0, v0⟩ := hd
      intro d k hnd
      simp only [List.map_cons, List.nodup_cons] at hnd
      have hstep : mergeStructured ((k0, v0) :: tl) d =
          mergeStructured tl (if jvalTruthy v0 then dictUpdate d k0 v0 else d) := by
        simp [mergeStructured, List.foldl_cons]
      by_cases hk : k = k0
      · have h2 : tl.lookup k = none := by
          apply lookup_none_of_not_mem
          rw [hk]; exact hnd.1
        have h1 : ((k0, v0) :: tl).lookup k = some v0 := by
          simp [List.lookup, hk]
        rw [hstep, ih _ k hnd.2, h2, h1]
        by_cases ht : jvalTruthy v0 <;> simp [ht, dictUpdate, hk]
      · have hbeq : (k == k0) = false := by
          simp only [beq_eq_false_iff_ne, ne_eq]
          exact hk
        have h1 : ((k0, v0) :: tl).lookup k = tl.lookup k := by
          simp [List.lookup, hbeq]
        rw [hstep, ih _ k hnd.2, h1]
        by_cases ht : jvalTruthy v0 <;> simp [ht, dictUpdate, hk]

/-! ### Claim theorems -/

/-- C1: whenever the observed score reaches the target (default 85), the
optimizer stage returns `should_continue = False` with the current artifact
and that score as final values and `total_iterations` equal to the current
iteration, without reaching the revision call; when the target is reached
at the first scored iteration, the orchestration loop stops there with the
artifact unchanged, no revision invocation, exactly one scoring call, and
a reported iteration count (`len(optimization_history) + 1`) of 1. -/
theorem C1_target_reached_stops (gen : Option String) (inp : OptInput)
    (h : ATS_TARGET_SCORE ≤ inp.ats_score) :
    (optimizerExecute gen inp).revisionInvoked = false ∧
    (optimizerExecute gen inp).result = .ok
      { should_continue := some false
      , final_resume := some inp.resume_content
      , final_score := some inp.ats_score
      , total_iterations := some inp.iteration } ∧
    ∀ (scoreEnv : Nat → ScoreEnvelope) (revGen : Nat → Option String) (initial : String),
      (scoreEnv 0).success = true →
      ATS_TARGET_SCORE ≤ (scoreEnv 0).ats_score.getD 0 →
      generateResumeLoop scoreEnv revGen initial =
        { resume_content := initial
        , optimization_history := []
        , scoringCalls := 1
        , revisionInvocations := 0 } := by
  refine ⟨?_, ?_, ?_⟩
  · simp [optimizerExecute, h]
  · simp [optimizerExecute, h]
  · intro scoreEnv revGen initial hs hsc
    rw [generateResumeLoop, optimizationLoopFrom_cons]
    simp [hs, optimizerExecute, hsc]

/-- Witness for C1 at a concrete input: score 90 at iteration 2 for the
stage, and a first-call score of 90 for the loop. -/
theorem C1_witness :
    (optimizerExecute none
        { resume_content := "R", ats_score := 90, iteration := 2
        , missing_keywords := [], suggestions := [], optimization_history := [] }).revisionInvoked
      = false ∧
    (optimizerExecute none
        { resume_content := "R", ats_score := 90, iteration := 2
        , missing_keywords := [], suggestions := [], optimization_history := [] }).result = .ok
      { should_continue := some false
      , final_resume := some "R"
      , final_score := some 90
      , total_iterations := some 2 } ∧
    generateResumeLoop (fun _ => { success := true, ats_score := some 90 }) (fun _ => none) "R" =
      { resume_content := "R", optimization_history := []
      , scoringCalls := 1, revisionInvocations := 0 } := by
  have h := C1_target_reached_stops none
    { resume_content := "R", ats_score := 90, iteration := 2
    , missing_keywords := [], suggestions := [], optimization_history := [] }
    (by decide)
  exact ⟨h.1, h.2.1, h.2.2 _ _ "R" rfl (by decide)⟩

/-- C2 (code bug): the claimed behavior — five scoring calls and up to
four revisions when the target is never reached — does not occur.  The
revision call always raises `TypeError` (three positional arguments to the
two-parameter `optimize_resume`), so the wrapped optimizer stage never
yields a truthy `should_continue`, every run of the loop performs exactly
one scoring call and keeps an empty history (hence the reported iteration
count is always 1 ≤ 5), and a concrete run whose scorer always returns 60
stops after one loop scoring call, one failed revision attempt and no
cap-reached note. -/
theorem C2_one_iteration_only :
    (∀ (gen : Option String) (inp : OptInput),
        (optimizerRun gen inp).should_continue ≠ some true) ∧
    (∀ (scoreEnv : Nat → ScoreEnvelope) (revGen : Nat → Option String) (initial : String),
        (generateResumeLoop scoreEnv revGen initial).optimization_history = [] ∧
        (generateResumeLoop scoreEnv revGen initial).scoringCalls = 1) ∧
    (∀ (req : JDInput) (o : GenOracles) (r : ResumeRecord) (tr : PipelineTrace),
        generate_resume req o = (.ok r, tr) →
        r.iterations = 1 ∧ r.iterations ≤ MAX_OPTIMIZATION_ITERATIONS) ∧
    (generate_resume
        { job_url := "", job_description_text := "Build and maintain Python microservices at scale"
        , job_title := "", company_name := "" }
        { fetch := .raise "offline", jdLlm := none, generation := .ok "\\documentclass R"
        , scoreEnv := fun _ => { success := true, ats_score := some 60 }
        , revGen := fun _ => none }).2 =
      { networkFetches := 0, loopScoringCalls := 1
      , revisionInvocations := 1, totalScoringCalls := 2 } := by
  refine ⟨?_, ?_, ?_, ?_⟩
  · intro gen inp hc
    have h := optimizerRun_not_continue gen inp
    rw [optimizerRun] at hc
    rw [hc] at h
    simp at h
  · intro scoreEnv revGen initial
    exact ⟨generateResumeLoop_history scoreEnv revGen initial,
      generateResumeLoop_scoringCalls scoreEnv revGen initial⟩
  · intro req o r tr h
    rw [generate_resume] at h
    rcases hp : (jdAgentRun (jd_extractor_execute req o.fetch o.jdLlm).result).payload with _ | d
    · rw [hp] at h
      simp at h
    · rw [hp] at h
      rcases hg : o.generation with e | content
      · rw [hg] at h
        simp at h
      · rw [hg] at h
        simp only [Prod.mk.injEq] at h
        have hr := h.1
        injection hr with hr
        have : r.iterations = 1 := by
          rw [← hr]
          simp [generateResumeLoop_history]
        exact ⟨this, by rw [this]; decide⟩
  · rfl

/-- Witness for C2's universally quantified parts at concrete inputs. -/
theorem C2_witness :
    (optimizerRun none
        { resume_content := "R", ats_score := 60, iteration := 1
        , missing_keywords := [], suggestions := [], optimization_history := [] }).should_continue
      ≠ some true ∧
    (generateResumeLoop (fun _ => { success := true, ats_score := some 60 })
        (fun _ => none) "R").optimization_history = [] := by
  refine ⟨C2_one_iteration_only.1 none _, (C2_one_iteration_only.2.1 _ _ "R").1⟩

/-- C8: a scoring-stage failure makes the loop abort at once — the state
keeps the artifact and history it entered the iteration with and no
revision is attempted — while the endpoint still returns the last
known-good artifact (the generated content held before the failed scoring
call) instead of aborting the run. -/
theorem C8_scoring_failure_keeps_artifact :
    (∀ (scoreEnv : Nat → ScoreEnvelope) (revGen : Nat → Option String)
        (i : Nat) (rest : List Nat) (st : LoopState),
        (scoreEnv st.scoringCalls).success = false →
        optimizationLoopFrom scoreEnv revGen (i :: rest) st =
          { st with scoringCalls := st.scoringCalls + 1 }) ∧
    (∀ (req : JDInput) (o : GenOracles) (content : String),
        req.job_url = "" →
        20 ≤ (pyStrip req.job_description_text).length →
        o.generation = .ok content →
        (o.scoreEnv 0).success = false →
        (∃ r : ResumeRecord, (generate_resume req o).1 = .ok r ∧
            r.latex_content = content ∧ r.iterations = 1 ∧
            r.optimization_history = []) ∧
        (generate_resume req o).2.revisionInvocations = 0 ∧
        (generate_resume req o).2.loopScoringCalls = 1) := by
  constructor
  · intro scoreEnv revGen i rest st hs
    rw [optimizationLoopFrom_cons, hs]
    simp
  · intro req o content hurl htext hgen hfail
    have hjd : (jd_extractor_execute req o.fetch o.jdLlm).result =
        .ok (structure_job_data req.job_description_text o.jdLlm
          |> (fun d => if req.job_title ≠ "" then dictUpdate d .job_title (.str req.job_title) else d)
          |> (fun d => if req.company_name ≠ "" then dictUpdate d .company_name (.str req.company_name) else d)) := by
      have hne : ¬(req.job_description_text = "" ∨
          (pyStrip req.job_description_text).length < 20) := by
        push_neg
        constructor
        · intro he
          rw [he] at htext
          simp [pyStrip, stripChars] at htext
        · omega
      simp [jd_extractor_execute, hurl, jd_finish, hne]
    have hloop : generateResumeLoop o.scoreEnv o.revGen content =
        { resume_content := content, optimization_history := []
        , scoringCalls := 1, revisionInvocations := 0 } := by
      rw [generateResumeLoop, optimizationLoopFrom_cons]
      simp [hfail]
    have hmain : generate_resume req o =
        (.ok { latex_content := content
             , ats_score := if (o.scoreEnv 1).success then (o.scoreEnv 1).ats_score.getD 0 else 0
             , iterations := 1
             , keywords := (o.scoreEnv 1).keyword_matches.getD []
             , optimization_history := [] }
        , { networkFetches := (jd_extractor_execute req o.fetch o.jdLlm).networkFetches
          , loopScoringCalls := 1
          , revisionInvocations := 0
          , totalScoringCalls := 2 }) := by
      simp [generate_resume, hjd, jdAgentRun, hgen, hloop]
    refine ⟨⟨{ latex_content := content
             , ats_score := if (o.scoreEnv 1).success then (o.scoreEnv 1).ats_score.getD 0 else 0
             , iterations := 1
             , keywords := (o.scoreEnv 1).keyword_matches.getD []
             , optimization_history := [] }, by rw [hmain], rfl, rfl, rfl⟩,
      by rw [hmain], by rw [hmain]⟩

/-- Witness for C8 at concrete inputs: a scorer that fails immediately. -/
theorem C8_witness :
    (optimizationLoopFrom (fun _ => { success := false }) (fun _ => none) [1, 2, 3, 4, 5]
        { resume_content := "R", optimization_history := []
        , scoringCalls := 0, revisionInvocations := 0 } =
      { resume_content := "R", optimization_history := []
      , scoringCalls := 1, revisionInvocations := 0 }) ∧
    (∃ r : ResumeRecord,
        (generate_resume
            { job_url := "", job_description_text := "Ship reliable backend services in Python"
            , job_title := "", company_name := "" }
            { fetch := .raise "offline", jdLlm := none
            , generation := .ok "\\documentclass R"
            , scoreEnv := fun _ => { success := false }
            , revGen := fun _ => none }).1 = .ok r ∧
        r.latex_content = "\\documentclass R" ∧ r.iterations = 1 ∧
        r.optimization_history = []) := by
  refine ⟨C8_scoring_failure_keeps_artifact.1 _ _ 1 [2, 3, 4, 5] _ rfl, ?_⟩
  exact (C8_scoring_failure_keeps_artifact.2
    { job_url := "", job_description_text := "Ship reliable backend services in Python"
    , job_title := "", company_name := "" }
    { fetch := .raise "offline", jdLlm := none
    , generation := .ok "\\documentclass R"
    , scoreEnv := fun _ => { success := false }
    , revGen := fun _ => none }
    "\\documentclass R" rfl (by decide) rfl rfl).1

/-- C10: below the target and below the cap, the optimizer's revision call
passes three positional arguments to the two-parameter
`LLMService.optimize_resume`, so `execute` raises `TypeError` at the call
site; the wrapped stage returns `success = False` with no
`should_continue` key, and the orchestration loop therefore stops after
that iteration with the artifact unchanged and no revised artifact ever
applied. -/
theorem C10_revision_call_arity (gen : Option String) (inp : OptInput)
    (hscore : inp.ats_score < ATS_TARGET_SCORE)
    (hiter : inp.iteration < MAX_OPTIMIZATION_ITERATIONS) :
    optimizer_revision_argCount ≠ optimize_resume_paramCount ∧
    (optimizerExecute gen inp).revisionInvoked = true ∧
    (optimizerExecute gen inp).result = .error (.typeError arityErrorMsg) ∧
    optimizerRun gen inp =
      { success := some false, error := some arityErrorMsg
      , error_type := some "TypeError" } ∧
    ∀ (scoreEnv : Nat → ScoreEnvelope) (revGen : Nat → Option String) (initial : String),
      (scoreEnv 0).success = true →
      (scoreEnv 0).ats_score.getD 0 < ATS_TARGET_SCORE →
      generateResumeLoop scoreEnv revGen initial =
        { resume_content := initial
        , optimization_history := []
        , scoringCalls := 1
        , revisionInvocations := 1 } := by
  have h1 : ¬ATS_TARGET_SCORE ≤ inp.ats_score := not_le.2 hscore
  have h2 : ¬MAX_OPTIMIZATION_ITERATIONS ≤ inp.iteration := not_le.2 hiter
  refine ⟨by decide, ?_, ?_, ?_, ?_⟩
  · simp [optimizerExecute, h1, h2, pyCallArity,
      optimize_resume_paramCount, optimizer_revision_argCount]
  · simp [optimizerExecute, h1, h2, pyCallArity,
      optimize_resume_paramCount, optimizer_revision_argCount]
  · simp [optimizerRun, optimizerExecute, h1, h2, pyCallArity,
      optimize_resume_paramCount, optimizer_revision_argCount, agentRun,
      pyErrorMessage, pyErrorTypeName]
  · intro scoreEnv revGen initial hs hsc
    rw [generateResumeLoop, optimizationLoopFrom_cons]
    have h1' : ¬ATS_TARGET_SCORE ≤ (scoreEnv 0).ats_score.getD 0 := not_le.2 hsc
    have h3 : ¬MAX_OPTIMIZATION_ITERATIONS ≤ 1 := by decide
    simp [hs, optimizerExecute, h1', h3, pyCallArity,
      optimize_resume_paramCount, optimizer_revision_argCount]

/-- Witness for C10: score 60 at iteration 1. -/
theorem C10_witness :
    optimizerRun none
        { resume_content := "R", ats_score := 60, iteration := 1
        , missing_keywords := [], suggestions := [], optimization_history := [] } =
      { success := some false, error := some arityErrorMsg
      , error_type := some "TypeError" } ∧
    generateResumeLoop (fun _ => { success := true, ats_score := some 60 })
        (fun _ => none) "R" =
      { resume_content := "R", optimization_history := []
      , scoringCalls := 1, revisionInvocations := 1 } := by
  have h := C10_revision_call_arity none
    { resume_content := "R", ats_score := 60, iteration := 1
    , missing_keywords := [], suggestions := [], optimization_history := [] }
    (by decide) (by decide)
  exact ⟨h.2.2.2.1, h.2.2.2.2 _ _ "R" rfl (by decide)⟩

/-- C3 counterexample: a request carrying both a pasted text of at least
20 non-whitespace characters and a URL does perform a network fetch —
`execute` consults the scraper whenever a nonblank URL is present
(jd_extractor.py line 33), so the claim's "regardless of whether a URL is
also supplied" fails. -/
theorem C3_counterexample :
    20 ≤ nonWsCount "Python developer with Django experience required" ∧
    (jd_extractor_execute
        { job_url := "https://example.com/job/1"
        , job_description_text := "Python developer with Django experience required"
        , job_title := "", company_name := "" }
        (.response 403 { title := "", company := "", cleanedText := "" })
        none).networkFetches = 1 :=
  ⟨by decide, rfl⟩

/-- C3 (amended): a resolution request whose pasted text has at least 20
non-whitespace characters and which supplies no (nonblank) URL never
performs a network fetch. -/
theorem C3_text_only_no_fetch (inp : JDInput) (fetch : FetchOutcome)
    (llm : Option (List (JKey × JVal)))
    (htext : 20 ≤ nonWsCount inp.job_description_text)
    (hurl : inp.job_url = "" ∨ pyStrip inp.job_url = "") :
    (jd_extractor_execute inp fetch llm).networkFetches = 0 := by
  have hcond : ¬(inp.job_url ≠ "" ∧ pyStrip inp.job_url ≠ "") := by
    rcases hurl with h | h <;> simp [h]
  simp [jd_extractor_execute, hcond]

/-- Witness for C3's amended statement at a concrete input. -/
theorem C3_witness :
    (jd_extractor_execute
        { job_url := "", job_description_text := "Python developer with Django experience required"
        , job_title := "", company_name := "" }
        (.raise "offline") none).networkFetches = 0 :=
  C3_text_only_no_fetch _ _ none (by decide) (Or.inl rfl)

/-- C4: when a URL whose pattern yields a title and an organization is
fetched and the response has a non-200 status, `fetch_job_from_url`
returns a degraded success — `success = True` with the placeholder job
text and the title/company parsed from the URL — not a failure. -/
theorem C4_non200_slug_degraded_success (url : String) (code : Nat) (page : PageExtract)
    (info : UrlInfo) (t c : String)
    (hinfo : parse_url_info url = some info)
    (ht : info.title = some t) (hc : info.company = some c)
    (hcode : code ≠ 200) :
    fetch_job_from_url url (.response code page) =
      { success := true
      , job_text := generate_placeholder_jd info url
      , title := some t
      , company := some c
      , source := some "url_parsed"
      , note := some "Job details extracted from URL. For best results, paste the full job description." } := by
  by_cases hL : strContains url "linkedin.com" = true
  · simp [fetch_job_from_url, hL, hinfo, fetch_linkedin, hcode, ht, hc]
  · exfalso
    rw [parse_url_info, if_neg hL] at hinfo
    by_cases hI : strContains url "indeed.com" = true
    · rw [if_pos hI] at hinfo
      injection hinfo with h
      rw [← h] at ht
      simp at ht
    · rw [if_neg hI] at hinfo
      by_cases hG : strContains url "glassdoor.com" = true
      · rw [if_pos hG] at hinfo
        injection hinfo with h
        rw [← h] at ht
        simp at ht
      · rw [if_neg hG] at hinfo
        exact Option.noConfusion hinfo

/-- Witness for C4: a LinkedIn slug URL with a 403 response. -/
theorem C4_witness :
    fetch_job_from_url "https://www.linkedin.com/jobs/view/software-engineer-at-google-123456/"
        (.response 403 { title := "", company := "", cleanedText := "" }) =
      { success := true
      , job_text := generate_placeholder_jd
          { source := some "LinkedIn", job_id := none
          , title := some "Software Engineer", company := some "Google" }
          "https://www.linkedin.com/jobs/view/software-engineer-at-google-123456/"
      , title := some "Software Engineer"
      , company := some "Google"
      , source := some "url_parsed"
      , note := some "Job details extracted from URL. For best results, paste the full job description." } :=
  C4_non200_slug_degraded_success _ 403 _
    { source := some "LinkedIn", job_id := none
    , title := some "Software Engineer", company := some "Google" }
    "Software Engineer" "Google" (by decide) rfl rfl (by decide)

/-- C5 counterexample: `"a b c d e f g h i j k"` has only 11 non-whitespace
characters, yet resolution succeeds with it and no URL — the code's check
is on the length of the stripped text (21 here), not on the number of
non-whitespace characters, so the claim's failure condition is wrong. -/
theorem C5_counterexample :
    nonWsCount "a b c d e f g h i j k" < 20 ∧
    ∃ d, (jd_extractor_execute
        { job_url := "", job_description_text := "a b c d e f g h i j k"
        , job_title := "", company_name := "" }
        (.raise "offline") none).result = .ok d :=
  ⟨by decide, ⟨_, rfl⟩⟩

/-- C5 (amended): with no (nonblank) URL, resolution fails — with the
insufficient-input `ValueError` surfaced through the stage envelope and
the endpoint's HTTP 500, and with no job data produced — exactly when the
stripped pasted text is shorter than 20 characters; with no URL and
stripped text of length at least 20 it always produces a job-data dict. -/
theorem C5_insufficient_input (inp : JDInput) (fetch : FetchOutcome)
    (llm : Option (List (JKey × JVal)))
    (hurl : inp.job_url = "" ∨ pyStrip inp.job_url = "") :
    ((pyStrip inp.job_description_text).length < 20 →
        (jd_extractor_execute inp fetch llm).result =
          .error (.valueError insufficientInputMsg) ∧
        (jdAgentRun (jd_extractor_execute inp fetch llm).result).success = false ∧
        (jdAgentRun (jd_extractor_execute inp fetch llm).result).payload = none ∧
        ∀ o : GenOracles, (generate_resume inp o).1 = .error (500, insufficientInputMsg)) ∧
    (20 ≤ (pyStrip inp.job_description_text).length →
        ∃ d, (jd_extractor_execute inp fetch llm).result = .ok d) := by
  have hcond : ¬(inp.job_url ≠ "" ∧ pyStrip inp.job_url ≠ "") := by
    rcases hurl with h | h <;> simp [h]
  constructor
  · intro hlt
    have herr : ∀ (l : Option (List (JKey × JVal))),
        jd_finish inp.job_description_text inp.job_title inp.company_name l =
          .error (.valueError insufficientInputMsg) := by
      intro l
      simp [jd_finish, Or.inr hlt]
    refine ⟨?_, ?_, ?_, ?_⟩
    · simp [jd_extractor_execute, hcond, herr]
    · simp [jd_extractor_execute, hcond, herr, jdAgentRun]
    · simp [jd_extractor_execute, hcond, herr, jdAgentRun]
    · intro o
      simp [generate_resume, jd_extractor_execute, hcond, herr, jdAgentRun,
        pyErrorMessage]
  · intro hge
    have hne : ¬(inp.job_description_text = "" ∨
        (pyStrip inp.job_description_text).length < 20) := by
      push_neg
      constructor
      · intro he
        rw [he] at hge
        simp [pyStrip, stripChars] at hge
      · omega
    have hfin : (jd_extractor_execute inp fetch llm).result =
        jd_finish inp.job_description_text inp.job_title inp.company_name llm := by
      simp [jd_extractor_execute, hcond]
    rw [hfin]
    simp only [jd_finish, if_neg hne]
    exact ⟨_, rfl⟩

/-- Witness for C5's amended statement: too-short text fails with the
insufficient-input error; usable text resolves to a job-data dict. -/
theorem C5_witness :
    (jd_extractor_execute
        { job_url := "", job_description_text := "too short"
        , job_title := "", company_name := "" }
        (.raise "offline") none).result = .error (.valueError insufficientInputMsg) ∧
    ∃ d, (jd_extractor_execute
        { job_url := "", job_description_text := "Develop distributed systems with Kubernetes"
        , job_title := "", company_name := "" }
        (.raise "offline") none).result = .ok d :=
  ⟨((C5_insufficient_input _ (.raise "offline") none (Or.inl rfl)).1 (by decide)).1,
    (C5_insufficient_input _ (.raise "offline") none (Or.inl rfl)).2 (by decide)⟩

/-- C6: in the structuring merge, a key of the provider response whose
value is truthy (nonempty) overrides the default dict's entry; a key that
is absent from the response, or present with an empty value, keeps the
deterministic default. -/
theorem C6_structuring_merge (raw : String) (items : List (JKey × JVal))
    (hnd : (items.map Prod.fst).Nodup) (k : JKey) :
    structure_job_data raw (some items) k =
      match items.lookup k with
      | some v => if jvalTruthy v then some v else default_result raw k
      | none => default_result raw k :=
  mergeStructured_lookup items (default_result raw) k hnd

/-- Witness for C6: a response missing `requirements` but carrying
`skills_required` keeps the default empty requirements and adopts the
provided skills. -/
theorem C6_witness :
    structure_job_data "Senior engineer role needing cloud skills"
        (some [(JKey.skills_required, JVal.list ["Go", "SQL", "Docker"])])
        JKey.requirements = some (JVal.list []) ∧
    structure_job_data "Senior engineer role needing cloud skills"
        (some [(JKey.skills_required, JVal.list ["Go", "SQL", "Docker"])])
        JKey.skills_required = some (JVal.list ["Go", "SQL", "Docker"]) :=
  ⟨(C6_structuring_merge _ _ (by decide) JKey.requirements).trans (by decide),
    (C6_structuring_merge _ _ (by decide) JKey.skills_required).trans (by decide)⟩

/-- C7 (code bug): `LLMService.optimize_resume` itself does keep the
previous artifact on a failed generation or a revision that lacks the
document preamble, and adopts a well-formed revision; but inside the loop
the optimizer stage raises `TypeError` at the revision call site (three
positional arguments to the two-parameter function), so its envelope is a
failure that carries neither an advanced `iteration` nor an appended
`optimization_history` — contradicting the claimed counter advance and
history record. -/
theorem C7_invalid_revision_discarded :
    optimize_resume "\\documentclass R" none = "\\documentclass R" ∧
    optimize_resume "\\documentclass R" (some "Here is your improved resume") =
      "\\documentclass R" ∧
    optimize_resume "\\documentclass R" (some "  \\documentclass S") =
      "  \\documentclass S" ∧
    optimizerRun (some "\\documentclass S")
        { resume_content := "\\documentclass R", ats_score := 60, iteration := 1
        , missing_keywords := ["Docker"], suggestions := ["add Docker"]
        , optimization_history := [] } =
      { success := some false, error := some arityErrorMsg
      , error_type := some "TypeError" } :=
  ⟨rfl, rfl, rfl, rfl⟩

/-- C9: every scoring result carries an integer score clamped to
`[0, 100]`: a present provider score is clamped with
`max(0, min(100, score))`, and an absent one is replaced by the single
default 50 — which is also the value the loop's `.get("ats_score", 0)`
reads back, the 0 default never substituting for an absent provider
score. -/
theorem C9_score_clamped (resp : ScoreLLMResult) :
    0 ≤ (ats_scorer_execute resp).ats_score ∧
    (ats_scorer_execute resp).ats_score ≤ 100 ∧
    (resp.ats_score = none →
        (ats_scorer_execute resp).ats_score = 50 ∧
        (ats_scorer_run resp).ats_score.getD 0 = 50) ∧
    (∀ s, resp.ats_score = some s →
        (ats_scorer_execute resp).ats_score = max 0 (min 100 s) ∧
        (ats_scorer_run resp).ats_score.getD 0 = max 0 (min 100 s)) := by
  rcases h : resp.ats_score with _ | s
  · refine ⟨?_, ?_, fun _ => ⟨?_, ?_⟩, fun s hs => ?_⟩ <;>
      simp [ats_scorer_execute, calculate_ats_score, ats_scorer_run, h] at *
  · have hx : (ats_scorer_execute resp).ats_score = max 0 (min 100 s) := by
      simp [ats_scorer_execute, calculate_ats_score, h]
    have hy : (ats_scorer_run resp).ats_score.getD 0 = max 0 (min 100 s) := by
      simp [ats_scorer_run, hx]
    refine ⟨?_, ?_, ?_, ?_⟩
    · rw [hx]; exact le_max_left 0 _
    · rw [hx]
      exact max_le (by norm_num) (min_le_left 100 s)
    · intro hn
      exact Option.noConfusion hn
    · intro s' hs'
      injection hs' with hs'
      rw [← hs']
      exact ⟨hx, hy⟩

/-- Witness for C9: an absent provider score reads as 50 everywhere, and a
provider score of 140 is clamped to 100. -/
theorem C9_witness :
    (ats_scorer_execute { ats_score := none }).ats_score = 50 ∧
    (ats_scorer_execute { ats_score := some 140 }).ats_score = max 0 (min 100 140) :=
  ⟨((C9_score_clamped { ats_score := none }).2.2.1 rfl).1,
    ((C9_score_clamped { ats_score := some 140 }).2.2.2 140 rfl).1⟩

end ResumeAI
